import Mathlib

/-!
Shallow embedding of torch/nested/_internal/nested_tensor.py: the jagged
NestedTensor wrapper, the offsets-to-symint registry, the dispatch hooks,
the differentiable values boundary, and jagged_from_list.

Modelling conventions:
- A dense tensor is a record carrying an identity tag tid (Python object
  identity, the key of WeakTensorKeyDictionary), shape, stride, dtype,
  device, flat integer data, and a hasFreeSymbols flag standing for the
  external has_free_symbols predicate.
- torch._C._get_singleton_int(counter, coeff) is modelled by the
  SymInt.singleton constructor; plain ints in size/stride tuples are
  SymInt.const. Multiplying a singleton by an int scales its coefficient.
- The global mutable pair (_tensor_id_counter, _tensor_symint_registry) is
  an explicit RegistryState threaded through every operation; the registry
  is an association list keyed by tensor identity (weakness of the
  references is a garbage-collection matter outside the embedding).
- Python assert/raise sites become Except with one error constructor per
  distinct raise site; the spec names these sites ShapeError, TypeError and
  ValueError in its error taxonomy.
-/

namespace NestedSpec

/-- Abstract dtype codes; only distinctness matters to this core. -/
inductive Dtype where
  | float32
  | float64
  | int64
deriving DecidableEq, Repr

/-- Abstract device codes; only distinctness matters to this core. -/
inductive Device where
  | cpu
  | cuda
  | metaDev
deriving DecidableEq, Repr

/-- A dense tensor: identity tag, shape, stride, dtype, device, flat data,
and a flag standing for the external has_free_symbols predicate. -/
structure Tensor where
  tid : Nat
  shape : List Nat
  stride : List Int
  dtype : Dtype
  device : Device
  data : List Int
  hasFreeSymbols : Bool
deriving DecidableEq, Repr

/-- A size-like value: either a concrete integer or a singleton symint
minted by torch._C._get_singleton_int(seed, coeff). -/
inductive SymInt where
  | const : Int → SymInt
  | singleton : Nat → Int → SymInt
deriving DecidableEq, Repr

/-- Multiplication of a size-like value by a plain integer, as used in
ragged_size * stride[0]: a singleton scales its coefficient. -/
def SymInt.mulInt : SymInt → Int → SymInt
  | .const c, k => .const (c * k)
  | .singleton i c, k => .singleton i (c * k)

/-- The module-level mutable state: _tensor_id_counter and
_tensor_symint_registry (keyed by tensor identity). -/
structure RegistryState where
  counter : Nat
  registry : List (Nat × SymInt)
deriving DecidableEq, Repr

/-- Lookup by tensor identity in the registry association list
(first match wins, as a dict with shadowing inserts at the head). -/
def lookupReg : List (Nat × SymInt) → Nat → Option SymInt
  | [], _ => none
  | (k, v) :: rest, key => if k = key then some v else lookupReg rest key

/-- get_tensor_symint(tensor, coeff): on a registry miss, mint a singleton
from the current counter with the given coefficient, store it under the
tensor's identity and advance the counter; on a hit return the stored
symbol with the state unchanged. -/
def get_tensor_symint (s : RegistryState) (t : Tensor) (coeff : Int) :
    SymInt × RegistryState :=
  match lookupReg s.registry t.tid with
  | some sym => (sym, s)
  | none =>
    let sym := SymInt.singleton s.counter coeff
    (sym, { counter := s.counter + 1, registry := (t.tid, sym) :: s.registry })

/-- The NestedTensor wrapper fields set by __init__ (plus requires_grad,
which __new__ forwards to _make_wrapper_subclass). -/
structure NestedTensor where
  values : Tensor
  offsets : Tensor
  size : List SymInt
  strides : List SymInt
  ragged_idx : Nat
  requires_grad : Bool
deriving DecidableEq, Repr

/-- The values argument of construction: a dense tensor or (illegally)
another NestedTensor. -/
inductive TensorArg where
  | dense : Tensor → TensorArg
  | nested : NestedTensor → TensorArg
deriving DecidableEq, Repr

/-- The two distinct precondition failures of NestedTensor.__init__:
the offsets rank check (the spec's ShapeError) and the no-nesting check
(the spec's TypeError). -/
inductive ConstructError where
  | shapeError
  | typeError
deriving DecidableEq, Repr

/-- NestedTensor.__init__(values, offsets, requires_grad): check
offsets.ndim == 1, check values is not a NestedTensor, resolve the ragged
symint for offsets with coeff 1, then set
size = (offsets.shape[0] - 1, ragged_size, *values.shape[1:]) and
strides = (ragged_size * stride[0], *stride) with stride = values.stride(),
ragged_idx = 1, storing the values and offsets references. -/
def NestedTensor.init (s : RegistryState) (values : TensorArg) (offsets : Tensor)
    (requires_grad : Bool) : Except ConstructError (NestedTensor × RegistryState) :=
  if offsets.shape.length ≠ 1 then .error .shapeError
  else
    match values with
    | .nested _ => .error .typeError
    | .dense v =>
      let res := get_tensor_symint s offsets 1
      let ragged_size := res.1
      let B : Int := (offsets.shape.headD 0 : Int) - 1
      let Ds := v.shape.drop 1
      let stride := v.stride
      .ok ({ values := v
             offsets := offsets
             size := SymInt.const B :: ragged_size :: Ds.map (fun d => SymInt.const (d : Int))
             strides := ragged_size.mulInt (stride.headD 0) :: stride.map SymInt.const
             ragged_idx := 1
             requires_grad := requires_grad }, res.2)

/-- NestedTensor.offsets(): returns the stored offsets reference. -/
def NestedTensor.offsetsFn (w : NestedTensor) : Tensor :=
  w.offsets

/-- self._size[self._ragged_idx], the ragged entry of the logical size. -/
def NestedTensor.raggedSize (w : NestedTensor) : SymInt :=
  w.size.getD w.ragged_idx (SymInt.const 0)

/-- The autograd context of DifferentiableValues: ctx.save_for_backward
records the wrapper's offsets. -/
structure ValuesCtx where
  saved_offsets : Tensor
deriving DecidableEq, Repr

/-- DifferentiableValues.forward: save x.offsets() in the context and
return x._values directly. -/
def DifferentiableValues.forward (x : NestedTensor) : ValuesCtx × Tensor :=
  ({ saved_offsets := x.offsetsFn }, x.values)

/-- DifferentiableValues.backward: rebuild a NestedTensor from the incoming
gradient and the saved offsets (requires_grad defaulted to false). -/
def DifferentiableValues.backward (s : RegistryState) (ctx : ValuesCtx)
    (gO : Tensor) : Except ConstructError (NestedTensor × RegistryState) :=
  NestedTensor.init s (.dense gO) ctx.saved_offsets false

/-- The side-channel context of __tensor_flatten__: requires_grad and the
ragged entry of the size. -/
structure FlattenCtx where
  requires_grad : Bool
  ragged_size : SymInt
deriving DecidableEq, Repr

/-- NestedTensor.__tensor_flatten__: the two inner tensors (attributes
_values and _offsets) plus the context. -/
def NestedTensor.tensor_flatten (w : NestedTensor) : (Tensor × Tensor) × FlattenCtx :=
  ((w.values, w.offsets),
   { requires_grad := w.requires_grad, ragged_size := w.raggedSize })

/-- NestedTensor.__tensor_unflatten__: when either inner tensor has free
symbols, first store meta.ragged_size in the registry under the offsets
identity (dict assignment, modelled as a shadowing head insert), then
construct NestedTensor(values, offsets, requires_grad = meta.requires_grad). -/
def NestedTensor.tensor_unflatten (s : RegistryState) (values offsets : Tensor)
    (meta : FlattenCtx) : Except ConstructError (NestedTensor × RegistryState) :=
  let s1 := if offsets.hasFreeSymbols || values.hasFreeSymbols then
      { s with registry := (offsets.tid, meta.ragged_size) :: s.registry }
    else s
  NestedTensor.init s1 (.dense values) offsets meta.requires_grad

/-- Outcome of kernel-level dispatch: a rule's result returned as-is, or a
NotImplementedError naming the operation. -/
inductive DispatchOutcome (R : Type) where
  | result : R → DispatchOutcome R
  | notImplementedError : Nat → DispatchOutcome R
deriving DecidableEq, Repr

/-- NestedTensor.__torch_dispatch__: consult lookup_jagged(func, args); if
a rule exists return fn(args) as-is, otherwise raise
NotImplementedError(func). Operations are abstract identifiers (Nat) and
the rule table lookup_jagged is an arbitrary external table. -/
def torch_dispatch {A R : Type} (lookup_jagged : Nat → A → Option (A → R))
    (func : Nat) (args : A) : DispatchOutcome R :=
  match lookup_jagged func args with
  | some fn => .result (fn args)
  | none => .notImplementedError func

/-- NestedTensor.__torch_function__: try jagged_torch_function(func, args);
on NotImplementedError (the Except error channel), run func with
DisableTorchFunctionSubclass, modelled by the plain interpretation
runDisabled. -/
def torch_function {A R : Type} (jagged_torch_function : Nat → A → Except Unit R)
    (runDisabled : Nat → A → R) (func : Nat) (args : A) : R :=
  match jagged_torch_function func args with
  | .ok r => r
  | .error _ => runDisabled func args

/-- Row-major contiguous stride of a shape, as produced by torch.cat for
a fresh contiguous result. -/
def contiguousStride : List Nat → List Int
  | [] => []
  | _ :: rest => (rest.foldr (fun d acc => (d : Int) * acc) 1) :: contiguousStride rest

/-- torch.cat(tensors, dim=0), modelled for a nonempty uniform list: the
leading sizes add up, trailing sizes, dtype and device come from the first
element, data is concatenated, and the result is a fresh contiguous
concrete tensor with identity freshId. -/
def torchCat (tensors : List Tensor) (freshId : Nat) : Tensor :=
  let lead : Nat := (tensors.map (fun t => t.shape.headD 0)).sum
  let trailing : List Nat := (tensors.map (fun t => t.shape.drop 1)).headD []
  { tid := freshId
    shape := lead :: trailing
    stride := contiguousStride (lead :: trailing)
    dtype := (tensors.map (fun t => t.dtype)).headD Dtype.float32
    device := (tensors.map (fun t => t.device)).headD Device.cpu
    data := (tensors.map (fun t => t.data)).flatten
    hasFreeSymbols := false }

/-- values.to(**to_kwargs): apply the requested dtype/device conversions. -/
def tensorTo (t : Tensor) (dtype : Option Dtype) (device : Option Device) : Tensor :=
  { t with dtype := dtype.getD t.dtype, device := device.getD t.device }

/-- Running cumulative sums, as tensor.cumsum(dim=0). -/
def cumsumFrom (acc : Int) : List Int → List Int
  | [] => []
  | x :: rest => (acc + x) :: cumsumFrom (acc + x) rest

def cumsum (xs : List Int) : List Int :=
  cumsumFrom 0 xs

/-- The offsets computed by jagged_from_list when none are supplied:
torch.cat of a one-element int64 zero tensor and the cumsum of the leading
sizes, an int64 rank-1 tensor on the given device with identity freshId. -/
def computeOffsets (sizes : List (List Nat)) (dev : Device) (freshId : Nat) : Tensor :=
  let lens : List Int := sizes.map (fun sz => (sz.headD 0 : Int))
  { tid := freshId
    shape := [lens.length + 1]
    stride := [1]
    dtype := Dtype.int64
    device := dev
    data := 0 :: cumsum lens
    hasFreeSymbols := false }

/-- The distinct raise sites of jagged_from_list (each a RuntimeError in
the source; the spec taxonomy calls the first two ValueError and the third
ShapeError), plus construction errors propagated from the wrapper. -/
inductive FromListError where
  | dtypeMismatch
  | deviceMismatch
  | notRepresentable
  | constructError : ConstructError → FromListError
deriving DecidableEq, Repr

/-- The spec's ValueError category for jagged_from_list failures. -/
def FromListError.isValueError : FromListError → Bool
  | .dtypeMismatch => true
  | .deviceMismatch => true
  | _ => false

/-- The spec's ShapeError category for jagged_from_list failures. -/
def FromListError.isShapeError : FromListError → Bool
  | .notRepresentable => true
  | _ => false

/-- Modelled from the spec: torch._nested_view_from_values_offsets (an
external kernel reached through nested_view_from_values_offsets) produces
the wrapper described in section 4.5, i.e. a NestedTensor constructed from
the values and offsets buffers. -/
def nested_view_from_values_offsets (s : RegistryState) (values offsets : Tensor) :
    Except ConstructError (NestedTensor × RegistryState) :=
  NestedTensor.init s (.dense values) offsets false

/-- jagged_from_list(tensors, offsets, dtype, device): check dtype
uniformity (a set of size one, so the empty list also fails here), then
device uniformity, then that only the leading axis varies; concatenate to
the values buffer, apply .to conversions, compute the offsets when not
supplied, and return the constructed wrapper together with the offsets.
freshValuesId and freshOffsetsId are the identities of the freshly
allocated buffers. -/
def jagged_from_list (s : RegistryState) (tensors : List Tensor)
    (offsets : Option Tensor) (dtype : Option Dtype) (device : Option Device)
    (freshValuesId freshOffsetsId : Nat) :
    Except FromListError ((NestedTensor × Tensor) × RegistryState) :=
  if (tensors.map (fun t => t.dtype)).dedup.length ≠ 1 then .error .dtypeMismatch
  else if (tensors.map (fun t => t.device)).dedup.length ≠ 1 then .error .deviceMismatch
  else
    let sizes := tensors.map (fun t => t.shape)
    let non_first_sizes := sizes.map (fun sz => sz.drop 1)
    let at_most_first_ragged := non_first_sizes.all (fun sz => sz = non_first_sizes.headD [])
    if ¬ at_most_first_ragged then .error .notRepresentable
    else
      let values := tensorTo (torchCat tensors freshValuesId) dtype device
      let offs := match offsets with
        | some o => o
        | none => computeOffsets sizes values.device freshOffsetsId
      match nested_view_from_values_offsets s values offs with
      | .ok (nt, s1) => .ok ((nt, offs), s1)
      | .error e => .error (.constructError e)

/-- Well-formedness of the registry state: every stored symbol is a
singleton minted from a counter value below the current one, and distinct
identities map to distinct symbols. The empty initial state satisfies it
and get_tensor_symint preserves it. -/
def RegistryState.WF (s : RegistryState) : Prop :=
  (∀ p ∈ s.registry, ∃ i c, p.2 = SymInt.singleton i c ∧ i < s.counter) ∧
  (∀ p ∈ s.registry, ∀ q ∈ s.registry, p.1 ≠ q.1 → p.2 ≠ q.2)

/-- The initial module state: counter 0, empty registry. -/
def regEmpty : RegistryState := { counter := 0, registry := [] }

/-- Sample offsets buffer (identity 11, three int64 entries). -/
def offsA : Tensor :=
  { tid := 11, shape := [3], stride := [1], dtype := Dtype.int64
    device := Device.cpu, data := [0, 1, 2], hasFreeSymbols := false }

/-- Sample offsets buffer with the same contents as offsA but a distinct
identity (a different allocation of an equal tensor). -/
def offsB : Tensor :=
  { tid := 12, shape := [3], stride := [1], dtype := Dtype.int64
    device := Device.cpu, data := [0, 1, 2], hasFreeSymbols := false }

/-- Sample dense values buffer of shape (3, 4), contiguous. -/
def v3x4 : Tensor :=
  { tid := 10, shape := [3, 4], stride := [4, 1], dtype := Dtype.float32
    device := Device.cpu, data := [], hasFreeSymbols := false }

/-- Sample rank-2 tensor used as an ill-formed offsets argument. -/
def badOffs : Tensor :=
  { tid := 13, shape := [2, 2], stride := [2, 1], dtype := Dtype.int64
    device := Device.cpu, data := [0, 1, 2, 3], hasFreeSymbols := false }

/-- Sample list element of shape (3, 4). -/
def a0 : Tensor :=
  { tid := 20, shape := [3, 4], stride := [4, 1], dtype := Dtype.float32
    device := Device.cpu, data := [], hasFreeSymbols := false }

/-- Sample list element of shape (5, 4): same trailing size as a0, a
different leading length. -/
def a1 : Tensor :=
  { tid := 21, shape := [5, 4], stride := [4, 1], dtype := Dtype.float32
    device := Device.cpu, data := [], hasFreeSymbols := false }

/-- The logical stride exactly as the spec words it: the symbol multiplied
by values.stride[0], followed by values.stride[1:]; to be compared with
the stride tuple the constructor actually stores. -/
def specLogicalStride (ragged_size : SymInt) (stride : List Int) : List SymInt :=
  ragged_size.mulInt (stride.headD 0) :: (stride.drop 1).map SymInt.const

/-- The wrapper built from v3x4 and offsA out of the initial state, with
requires_grad set. -/
def w0 : NestedTensor :=
  { values := v3x4
    offsets := offsA
    size := [SymInt.const 2, SymInt.singleton 0 1, SymInt.const 4]
    strides := [SymInt.singleton 0 4, SymInt.const 4, SymInt.const 1]
    ragged_idx := 1
    requires_grad := true }

section Lemmas

theorem lookupReg_mem {reg : List (Nat × SymInt)} {k : Nat} {v : SymInt}
    (h : lookupReg reg k = some v) : (k, v) ∈ reg := by
  induction reg with
  | nil => simp [lookupReg] at h
  | cons p rest ih =>
    obtain ⟨pk, pv⟩ := p
    rw [lookupReg] at h
    by_cases hk : pk = k
    · subst hk
      rw [if_pos rfl] at h
      obtain rfl : pv = v := Option.some.inj h
      exact List.mem_cons_self _ _
    · rw [if_neg hk] at h
      exact List.mem_cons_of_mem _ (ih h)

theorem get_tensor_symint_hit {s : RegistryState} {t : Tensor} {c : Int} {y : SymInt}
    (h : lookupReg s.registry t.tid = some y) :
    get_tensor_symint s t c = (y, s) := by
  simp [get_tensor_symint, h]

theorem get_tensor_symint_miss {s : RegistryState} {t : Tensor} {c : Int}
    (h : lookupReg s.registry t.tid = none) :
    get_tensor_symint s t c =
      (SymInt.singleton s.counter c,
       { counter := s.counter + 1
         registry := (t.tid, SymInt.singleton s.counter c) :: s.registry }) := by
  simp [get_tensor_symint, h]

theorem lookupReg_after_get {s : RegistryState} (t : Tensor) (c : Int) :
    lookupReg (get_tensor_symint s t c).2.registry t.tid =
      some (get_tensor_symint s t c).1 := by
  cases h : lookupReg s.registry t.tid with
  | some y => rw [get_tensor_symint_hit h]; exact h
  | none => rw [get_tensor_symint_miss h]; simp [lookupReg]

theorem init_ok {s : RegistryState} {v o : Tensor} {rg : Bool}
    (h : o.shape.length = 1) :
    NestedTensor.init s (.dense v) o rg =
      .ok ({ values := v
             offsets := o
             size := SymInt.const ((o.shape.headD 0 : Int) - 1) ::
               (get_tensor_symint s o 1).1 ::
               (v.shape.drop 1).map (fun d => SymInt.const (d : Int))
             strides := ((get_tensor_symint s o 1).1).mulInt (v.stride.headD 0) ::
               v.stride.map SymInt.const
             ragged_idx := 1
             requires_grad := rg }, (get_tensor_symint s o 1).2) := by
  unfold NestedTensor.init
  rw [if_neg (fun hc => hc h)]

theorem unflatten_free {s : RegistryState} {v o : Tensor} {m : FlattenCtx}
    (ho : o.shape.length = 1)
    (hfree : (o.hasFreeSymbols || v.hasFreeSymbols) = true) :
    NestedTensor.tensor_unflatten s v o m =
      .ok ({ values := v
             offsets := o
             size := SymInt.const ((o.shape.headD 0 : Int) - 1) :: m.ragged_size ::
               (v.shape.drop 1).map (fun d => SymInt.const (d : Int))
             strides := m.ragged_size.mulInt (v.stride.headD 0) ::
               v.stride.map SymInt.const
             ragged_idx := 1
             requires_grad := m.requires_grad },
           { counter := s.counter
             registry := (o.tid, m.ragged_size) :: s.registry }) := by
  unfold NestedTensor.tensor_unflatten
  dsimp only
  rw [if_pos hfree, init_ok ho]
  have hl : lookupReg
      ({ s with registry := (o.tid, m.ragged_size) :: s.registry } :
        RegistryState).registry o.tid = some m.ragged_size := by
    simp [lookupReg]
  rw [get_tensor_symint_hit hl]

theorem unflatten_nofree {s : RegistryState} {v o : Tensor} {m : FlattenCtx}
    (hfree : (o.hasFreeSymbols || v.hasFreeSymbols) = false) :
    NestedTensor.tensor_unflatten s v o m =
      NestedTensor.init s (.dense v) o m.requires_grad := by
  unfold NestedTensor.tensor_unflatten
  dsimp only
  rw [if_neg (by rw [hfree]; exact Bool.false_ne_true)]

end Lemmas

/-- C1: repeated resolve calls on the same offsets buffer return the same
symbol; resolving two distinct offsets buffers (identical contents allowed:
only the identity tid is consulted) returns distinct symbols; and a first
resolve mints the symbol from the current counter and advances it. -/
theorem c1_registry_identity (s : RegistryState) (hWF : s.WF)
    (o o1 o2 : Tensor) (hne : o1.tid ≠ o2.tid) :
    (get_tensor_symint (get_tensor_symint s o 1).2 o 1).1 = (get_tensor_symint s o 1).1 ∧
    (get_tensor_symint (get_tensor_symint s o1 1).2 o2 1).1 ≠ (get_tensor_symint s o1 1).1 ∧
    (lookupReg s.registry o.tid = none →
      (get_tensor_symint s o 1).1 = SymInt.singleton s.counter 1 ∧
      (get_tensor_symint s o 1).2.counter = s.counter + 1) := by
  obtain ⟨hBound, hInj⟩ := hWF
  refine ⟨?_, ?_, ?_⟩
  · rw [get_tensor_symint_hit (lookupReg_after_get o 1)]
  · cases h1 : lookupReg s.registry o1.tid with
    | some y1 =>
      rw [get_tensor_symint_hit h1]
      cases h2 : lookupReg s.registry o2.tid with
      | some y2 =>
        rw [get_tensor_symint_hit h2]
        intro hEq
        exact hInj _ (lookupReg_mem h2) _ (lookupReg_mem h1) (Ne.symm hne) hEq
      | none =>
        rw [get_tensor_symint_miss h2]
        obtain ⟨i, c, hy, hic⟩ := hBound _ (lookupReg_mem h1)
        dsimp only at hy
        intro hEq
        dsimp only at hEq
        rw [hy] at hEq
        simp only [SymInt.singleton.injEq] at hEq
        omega
    | none =>
      rw [get_tensor_symint_miss h1]
      dsimp only
      have hstep : lookupReg ((o1.tid, SymInt.singleton s.counter 1) :: s.registry) o2.tid
          = lookupReg s.registry o2.tid := by
        simp [lookupReg, hne]
      cases h2 : lookupReg s.registry o2.tid with
      | some y2 =>
        rw [get_tensor_symint_hit (show lookupReg _ o2.tid = some y2 from hstep.trans h2)]
        obtain ⟨i, c, hy, hic⟩ := hBound _ (lookupReg_mem h2)
        dsimp only at hy
        intro hEq
        dsimp only at hEq
        rw [hy] at hEq
        simp only [SymInt.singleton.injEq] at hEq
        omega
      | none =>
        rw [get_tensor_symint_miss (show lookupReg _ o2.tid = none from hstep.trans h2)]
        intro hEq
        dsimp only at hEq
        simp only [SymInt.singleton.injEq] at hEq
        omega
  · intro h
    rw [get_tensor_symint_miss h]
    exact ⟨rfl, rfl⟩

/-- Witness for C1 at the initial state, with offsA and offsB two buffers
of identical contents but distinct identities. -/
theorem c1_registry_identity_witness :
    (get_tensor_symint (get_tensor_symint regEmpty offsA 1).2 offsA 1).1
      = (get_tensor_symint regEmpty offsA 1).1 ∧
    (get_tensor_symint (get_tensor_symint regEmpty offsA 1).2 offsB 1).1
      ≠ (get_tensor_symint regEmpty offsA 1).1 ∧
    (lookupReg regEmpty.registry offsA.tid = none →
      (get_tensor_symint regEmpty offsA 1).1 = SymInt.singleton regEmpty.counter 1 ∧
      (get_tensor_symint regEmpty offsA 1).2.counter = regEmpty.counter + 1) :=
  c1_registry_identity regEmpty
    (by constructor <;> simp [regEmpty, RegistryState.WF])
    offsA offsA offsB (by decide)

/-- C10: resolving an offsets buffer already present in the registry
returns the stored symbol and leaves the counter and the registry mapping
unchanged; a first resolve advances the counter by exactly one and adds
exactly the one new entry. -/
theorem c10_resolve_frame (s : RegistryState) (t : Tensor) (c : Int) :
    (∀ y, lookupReg s.registry t.tid = some y → get_tensor_symint s t c = (y, s)) ∧
    (lookupReg s.registry t.tid = none →
      (get_tensor_symint s t c).2.counter = s.counter + 1 ∧
      (get_tensor_symint s t c).2.registry
        = (t.tid, SymInt.singleton s.counter c) :: s.registry ∧
      lookupReg (get_tensor_symint s t c).2.registry t.tid
        = some (get_tensor_symint s t c).1) := by
  refine ⟨fun y hy => get_tensor_symint_hit hy, fun h => ?_⟩
  rw [get_tensor_symint_miss h]
  exact ⟨rfl, rfl, by simp [lookupReg]⟩

/-- Witness for C10: a registry holding offsA under symbol 0 is not
changed by a repeated resolve of offsA. -/
theorem c10_resolve_frame_witness :
    get_tensor_symint
        { counter := 1, registry := [(offsA.tid, SymInt.singleton 0 1)] } offsA 1
      = (SymInt.singleton 0 1,
         { counter := 1, registry := [(offsA.tid, SymInt.singleton 0 1)] }) :=
  (c10_resolve_frame
      { counter := 1, registry := [(offsA.tid, SymInt.singleton 0 1)] } offsA 1).1
    (SymInt.singleton 0 1) (by decide)

/-- C2 counterexample: constructing from values of shape (3, 4) with
contiguous stride (4, 1) stores the stride tuple (symbol * 4, 4, 1),
keeping stride[0] as the second entry, while the claimed formula
(symbol * stride[0], *stride[1:]) yields (symbol * 4, 1): the stored
stride is not the claimed one. -/
theorem c2_stride_counterexample :
    (∃ s1, NestedTensor.init regEmpty (.dense v3x4) offsA false =
      .ok ({ values := v3x4
             offsets := offsA
             size := [SymInt.const 2, SymInt.singleton 0 1, SymInt.const 4]
             strides := [SymInt.singleton 0 4, SymInt.const 4, SymInt.const 1]
             ragged_idx := 1
             requires_grad := false }, s1)) ∧
    [SymInt.singleton 0 4, SymInt.const 4, SymInt.const 1]
      ≠ specLogicalStride (SymInt.singleton 0 1) v3x4.stride := by
  refine ⟨⟨{ counter := 1, registry := [(11, SymInt.singleton 0 1)] }, rfl⟩, by decide⟩

/-- C2 (amended): with rank-1 offsets, construction resolves the ragged
symbol for offsets through the registry with coefficient 1 and returns a
wrapper with size (offsets.length - 1, symbol, *values.shape[1:]) and
strides (symbol * values.stride[0], *values.stride) — the full stride
tuple of values follows the scaled leading entry, rather than the spec's
values.stride[1:] — storing the values and offsets references uncopied. -/
theorem c2_construction (s : RegistryState) (v o : Tensor) (rg : Bool)
    (h : o.shape.length = 1) :
    NestedTensor.init s (.dense v) o rg =
      .ok ({ values := v
             offsets := o
             size := SymInt.const ((o.shape.headD 0 : Int) - 1) ::
               (get_tensor_symint s o 1).1 ::
               (v.shape.drop 1).map (fun d => SymInt.const (d : Int))
             strides := ((get_tensor_symint s o 1).1).mulInt (v.stride.headD 0) ::
               v.stride.map SymInt.const
             ragged_idx := 1
             requires_grad := rg }, (get_tensor_symint s o 1).2) :=
  init_ok h

/-- Witness for C2 (amended) at a concrete values buffer of shape (3, 4)
and a concrete three-entry offsets buffer. -/
theorem c2_construction_witness :
    NestedTensor.init regEmpty (.dense v3x4) offsA true =
      .ok ({ values := v3x4
             offsets := offsA
             size := SymInt.const ((offsA.shape.headD 0 : Int) - 1) ::
               (get_tensor_symint regEmpty offsA 1).1 ::
               (v3x4.shape.drop 1).map (fun d => SymInt.const (d : Int))
             strides := ((get_tensor_symint regEmpty offsA 1).1).mulInt
                 (v3x4.stride.headD 0) ::
               v3x4.stride.map SymInt.const
             ragged_idx := 1
             requires_grad := true }, (get_tensor_symint regEmpty offsA 1).2) :=
  c2_construction regEmpty v3x4 offsA true (by decide)

/-- C3: construction fails at the rank check (the spec's ShapeError) when
offsets is not rank-1; with rank-1 offsets it fails at the no-nesting
check (the spec's TypeError) when values is itself a NestedTensor; and
every call either returns a fully built wrapper or an error, with no
partially constructed state. -/
theorem c3_construction_errors (s : RegistryState) (values : TensorArg)
    (o : Tensor) (rg : Bool) :
    (o.shape.length ≠ 1 →
      NestedTensor.init s values o rg = .error .shapeError) ∧
    (o.shape.length = 1 → ∀ nt, values = .nested nt →
      NestedTensor.init s values o rg = .error .typeError) ∧
    ((∃ w s1, NestedTensor.init s values o rg = .ok (w, s1)) ∨
      ∃ e, NestedTensor.init s values o rg = .error e) := by
  refine ⟨fun h => ?_, fun h nt hv => ?_, ?_⟩
  · unfold NestedTensor.init
    rw [if_pos h]
  · subst hv
    unfold NestedTensor.init
    rw [if_neg (fun hc => hc h)]
  · by_cases h : o.shape.length = 1
    · cases values with
      | dense v => exact .inl ⟨_, _, init_ok h⟩
      | nested nt =>
        refine .inr ⟨.typeError, ?_⟩
        unfold NestedTensor.init
        rw [if_neg (fun hc => hc h)]
    · refine .inr ⟨.shapeError, ?_⟩
      unfold NestedTensor.init
      rw [if_pos h]

/-- Witness for C3: a rank-2 offsets argument is rejected at the rank
check. -/
theorem c3_construction_errors_witness :
    NestedTensor.init regEmpty (.dense v3x4) badOffs false
      = .error ConstructError.shapeError :=
  (c3_construction_errors regEmpty (.dense v3x4) badOffs false).1 (by decide)

/-- C4: jagged_from_list fails in the spec's ValueError category when the
list is empty (the dtype-uniformity set check already rejects it) or when
dtypes or devices differ across the list, and fails in the spec's
ShapeError category when, dtypes and devices being uniform, some element's
trailing shape differs from the first element's. -/
theorem c4_from_list_errors (s : RegistryState) (ts : List Tensor)
    (off : Option Tensor) (dt : Option Dtype) (dev : Option Device) (i j : Nat) :
    (ts = [] → ∃ e, jagged_from_list s ts off dt dev i j = .error e ∧
      e.isValueError = true) ∧
    ((ts.map (fun t => t.dtype)).dedup.length ≠ 1 →
      ∃ e, jagged_from_list s ts off dt dev i j = .error e ∧
        e.isValueError = true) ∧
    ((ts.map (fun t => t.dtype)).dedup.length = 1 →
      (ts.map (fun t => t.device)).dedup.length ≠ 1 →
      ∃ e, jagged_from_list s ts off dt dev i j = .error e ∧
        e.isValueError = true) ∧
    ((ts.map (fun t => t.dtype)).dedup.length = 1 →
      (ts.map (fun t => t.device)).dedup.length = 1 →
      ((ts.map (fun t => t.shape)).map (fun sz => sz.drop 1)).all
          (fun sz => sz = ((ts.map (fun t => t.shape)).map
            (fun sz => sz.drop 1)).headD []) = false →
      ∃ e, jagged_from_list s ts off dt dev i j = .error e ∧
        e.isShapeError = true) := by
  refine ⟨fun h => ?_, fun h => ?_, fun h1 h2 => ?_, fun h1 h2 h3 => ?_⟩
  · subst h
    exact ⟨.dtypeMismatch, by unfold jagged_from_list; rw [if_pos (by simp)], rfl⟩
  · exact ⟨.dtypeMismatch, by unfold jagged_from_list; rw [if_pos h], rfl⟩
  · refine ⟨.deviceMismatch, ?_, rfl⟩
    unfold jagged_from_list
    rw [if_neg (fun hc => hc h1), if_pos h2]
  · refine ⟨.notRepresentable, ?_, rfl⟩
    unfold jagged_from_list
    rw [if_neg (fun hc => hc h1), if_neg (fun hc => hc h2)]
    dsimp only
    rw [if_pos (by rw [h3]; exact Bool.false_ne_true)]

/-- Witness for C4: the empty list is rejected in the ValueError
category. -/
theorem c4_from_list_errors_witness :
    ∃ e, jagged_from_list regEmpty [] none none none 30 31 = .error e ∧
      e.isValueError = true :=
  (c4_from_list_errors regEmpty [] none none none 30 31).1 rfl

/-- C5: on a list passing the uniformity checks, with no offsets supplied,
jagged_from_list computes the offsets as the int64 sequence 0 followed by
the running sums of the leading-axis lengths, on the values buffer's
device, and returns them together with the wrapper constructed from the
concatenated values and these offsets. -/
theorem c5_computed_offsets (s : RegistryState) (ts : List Tensor)
    (dt : Option Dtype) (dev : Option Device) (i j : Nat)
    (h1 : (ts.map (fun t => t.dtype)).dedup.length = 1)
    (h2 : (ts.map (fun t => t.device)).dedup.length = 1)
    (h3 : ((ts.map (fun t => t.shape)).map (fun sz => sz.drop 1)).all
        (fun sz => sz = ((ts.map (fun t => t.shape)).map
          (fun sz => sz.drop 1)).headD []) = true) :
    ∃ w s1,
      jagged_from_list s ts none dt dev i j
        = .ok ((w, computeOffsets (ts.map (fun t => t.shape))
            (tensorTo (torchCat ts i) dt dev).device j), s1) ∧
      w.offsets = computeOffsets (ts.map (fun t => t.shape))
          (tensorTo (torchCat ts i) dt dev).device j ∧
      w.values = tensorTo (torchCat ts i) dt dev ∧
      w.offsets.data = 0 :: cumsum (ts.map (fun t => (t.shape.headD 0 : Int))) ∧
      w.offsets.dtype = Dtype.int64 ∧
      w.offsets.device = w.values.device := by
  unfold jagged_from_list
  rw [if_neg (fun hc => hc h1), if_neg (fun hc => hc h2)]
  dsimp only
  rw [if_neg (by rw [h3]; exact fun hc => hc rfl)]
  unfold nested_view_from_values_offsets
  rw [init_ok (by rfl)]
  refine ⟨_, _, rfl, rfl, rfl, ?_, rfl, rfl⟩
  simp only [computeOffsets]
  rw [List.map_map]
  rfl

/-- Witness for C5 on the two-element list of a0 (leading length 3) and
a1 (leading length 5), whose computed offsets data is 0, 3, 8. -/
theorem c5_computed_offsets_witness :
    ∃ w s1,
      jagged_from_list regEmpty [a0, a1] none none none 30 31
        = .ok ((w, computeOffsets ([a0, a1].map (fun t => t.shape))
            (tensorTo (torchCat [a0, a1] 30) none none).device 31), s1) ∧
      w.offsets = computeOffsets ([a0, a1].map (fun t => t.shape))
          (tensorTo (torchCat [a0, a1] 30) none none).device 31 ∧
      w.values = tensorTo (torchCat [a0, a1] 30) none none ∧
      w.offsets.data
        = 0 :: cumsum ([a0, a1].map (fun t => (t.shape.headD 0 : Int))) ∧
      w.offsets.dtype = Dtype.int64 ∧
      w.offsets.device = w.values.device :=
  c5_computed_offsets regEmpty [a0, a1] none none 30 31
    (by decide) (by decide) (by decide)

/-- C6: kernel-level dispatch returns a rule's result as-is when the
lookup table has an entry for the operation, and otherwise fails with
NotImplementedError naming the operation; there is no other outcome at
this level. -/
theorem c6_kernel_dispatch {A R : Type} (lookup_jagged : Nat → A → Option (A → R))
    (func : Nat) (args : A) :
    (lookup_jagged func args = none →
      torch_dispatch lookup_jagged func args = .notImplementedError func) ∧
    (∀ fn, lookup_jagged func args = some fn →
      torch_dispatch lookup_jagged func args = .result (fn args)) := by
  constructor
  · intro h
    simp [torch_dispatch, h]
  · intro fn h
    simp [torch_dispatch, h]

/-- Witness for C6: an empty rule table rejects operation 7 naming it. -/
theorem c6_kernel_dispatch_witness :
    torch_dispatch (fun _ (_ : Unit) => (none : Option (Unit → Nat))) 7 ()
      = .notImplementedError 7 :=
  (c6_kernel_dispatch (fun _ _ => none) 7 ()).1 rfl

/-- C7: function-level dispatch returns the rule's value when the rule
succeeds, and re-runs the operation with subclass interception disabled
when the rule signals not-implemented. -/
theorem c7_function_dispatch {A R : Type}
    (jagged_torch_function : Nat → A → Except Unit R)
    (runDisabled : Nat → A → R) (func : Nat) (args : A) :
    (∀ e, jagged_torch_function func args = .error e →
      torch_function jagged_torch_function runDisabled func args
        = runDisabled func args) ∧
    (∀ r, jagged_torch_function func args = .ok r →
      torch_function jagged_torch_function runDisabled func args = r) := by
  constructor
  · intro e h
    simp [torch_function, h]
  · intro r h
    simp [torch_function, h]

/-- Witness for C7: a declining function-level rule falls through to the
disabled-interception run. -/
theorem c7_function_dispatch_witness :
    torch_function (fun _ (_ : Unit) => (.error () : Except Unit Nat))
        (fun _ _ => 42) 7 () = 42 :=
  (c7_function_dispatch (fun _ _ => .error ()) (fun _ _ => 42) 7 ()).1 () rfl

/-- C8: the differentiable extraction forward records the wrapper's
offsets in the context and returns the values buffer itself (no copy);
the backward builds a new wrapper from the gradient buffer and the
recorded offsets, so the gradient with respect to the wrapper shares its
offsets buffer. -/
theorem c8_differentiable_values (s : RegistryState) (w : NestedTensor)
    (g : Tensor) (h : w.offsets.shape.length = 1) :
    DifferentiableValues.forward w
      = ({ saved_offsets := w.offsets }, w.values) ∧
    ∃ nt s1,
      DifferentiableValues.backward s { saved_offsets := w.offsets } g
        = .ok (nt, s1) ∧
      nt.offsets = w.offsets ∧ nt.values = g := by
  refine ⟨rfl, ?_⟩
  unfold DifferentiableValues.backward
  rw [init_ok h]
  exact ⟨_, _, rfl, rfl, rfl⟩

/-- Witness for C8 on the concrete wrapper w0 with a gradient buffer of
the same shape as its values. -/
theorem c8_differentiable_values_witness :
    DifferentiableValues.forward w0
      = ({ saved_offsets := w0.offsets }, w0.values) ∧
    ∃ nt s1,
      DifferentiableValues.backward regEmpty { saved_offsets := w0.offsets } v3x4
        = .ok (nt, s1) ∧
      nt.offsets = w0.offsets ∧ nt.values = v3x4 :=
  c8_differentiable_values regEmpty w0 v3x4 (by decide)

/-- C9: flattening a constructed wrapper yields its two buffers and a
context carrying requires_grad and the ragged size entry, and unflattening
from those same buffers and context rebuilds the identical wrapper without
advancing the counter (same buffer identities, same requires_grad, same
symbol association, no duplicate mint). On a fresh offsets buffer,
unflatten pre-registers the context's ragged symbol exactly when one of
the buffers carries free symbols: then the rebuilt wrapper adopts
meta.ragged_size with the counter untouched, otherwise a fresh symbol is
minted from the counter. -/
theorem c9_flatten_unflatten (s : RegistryState) (v o : Tensor) (rg : Bool)
    (w : NestedTensor) (s1 : RegistryState)
    (h : NestedTensor.init s (.dense v) o rg = .ok (w, s1)) :
    (w.tensor_flatten = ((w.values, w.offsets),
        { requires_grad := w.requires_grad, ragged_size := w.raggedSize }) ∧
      ∃ s2, NestedTensor.tensor_unflatten s1 w.values w.offsets
          { requires_grad := w.requires_grad, ragged_size := w.raggedSize }
        = .ok (w, s2) ∧ s2.counter = s1.counter) ∧
    (∀ s' vals offs m, lookupReg s'.registry offs.tid = none →
      offs.shape.length = 1 →
      (((offs.hasFreeSymbols || vals.hasFreeSymbols) = true →
        ∃ w' s2, NestedTensor.tensor_unflatten s' vals offs m = .ok (w', s2) ∧
          w'.raggedSize = m.ragged_size ∧ s2.counter = s'.counter) ∧
        ((offs.hasFreeSymbols || vals.hasFreeSymbols) = false →
        ∃ w' s2, NestedTensor.tensor_unflatten s' vals offs m = .ok (w', s2) ∧
          w'.raggedSize = SymInt.singleton s'.counter 1 ∧
          s2.counter = s'.counter + 1))) := by
  have ho : o.shape.length = 1 := by
    by_contra hno
    unfold NestedTensor.init at h
    rw [if_pos hno] at h
    exact Except.noConfusion h
  have hh := (init_ok ho).symm.trans h
  rw [Except.ok.injEq, Prod.mk.injEq] at hh
  obtain ⟨hw, hs1⟩ := hh
  subst hw
  subst hs1
  constructor
  · refine ⟨rfl, ?_⟩
    by_cases hfree : (o.hasFreeSymbols || v.hasFreeSymbols) = true
    · exact ⟨_, unflatten_free ho hfree, rfl⟩
    · have hf : (o.hasFreeSymbols || v.hasFreeSymbols) = false := by
        revert hfree
        cases o.hasFreeSymbols || v.hasFreeSymbols <;> simp
      refine ⟨_, ?_, rfl⟩
      rw [unflatten_nofree hf, init_ok ho,
        get_tensor_symint_hit (lookupReg_after_get o 1)]
  · intro s' vals offs m hnone hsho
    constructor
    · intro hfree
      exact ⟨_, _, unflatten_free hsho hfree, rfl, rfl⟩
    · intro hfree
      rw [unflatten_nofree hfree, init_ok hsho, get_tensor_symint_miss hnone]
      exact ⟨_, _, rfl, rfl, rfl⟩

/-- Witness for C9 on the wrapper w0 constructed from the initial state. -/
theorem c9_flatten_unflatten_witness :
    (w0.tensor_flatten = ((w0.values, w0.offsets),
        { requires_grad := w0.requires_grad, ragged_size := w0.raggedSize }) ∧
      ∃ s2, NestedTensor.tensor_unflatten
          { counter := 1, registry := [(11, SymInt.singleton 0 1)] }
          w0.values w0.offsets
          { requires_grad := w0.requires_grad, ragged_size := w0.raggedSize }
        = .ok (w0, s2) ∧ s2.counter = 1) ∧
    (∀ s' vals offs m, lookupReg s'.registry offs.tid = none →
      offs.shape.length = 1 →
      (((offs.hasFreeSymbols || vals.hasFreeSymbols) = true →
        ∃ w' s2, NestedTensor.tensor_unflatten s' vals offs m = .ok (w', s2) ∧
          w'.raggedSize = m.ragged_size ∧ s2.counter = s'.counter) ∧
        ((offs.hasFreeSymbols || vals.hasFreeSymbols) = false →
        ∃ w' s2, NestedTensor.tensor_unflatten s' vals offs m = .ok (w', s2) ∧
          w'.raggedSize = SymInt.singleton s'.counter 1 ∧
          s2.counter = s'.counter + 1))) :=
  c9_flatten_unflatten regEmpty v3x4 offsA true w0
    { counter := 1, registry := [(11, SymInt.singleton 0 1)] } (by rfl)

end NestedSpec
